import Mathlib

/-!
  Shallow embedding of the encounter chat session controller of the
  aiDoctor frontend (file `frontend/src/app/consult/[encounterId]/page.tsx`,
  the version with clinical-note generation).

  The React component state (`useState` / `useRef` cells) is gathered into
  one explicit record `ConsultState`; each `useCallback` handler becomes a
  pure state-transition function.  Network requests are modelled by
  recording the issued call in a `calls` log and passing the response
  outcome as an explicit parameter.  `EventSource` objects are modelled as
  `Session` records with a unique identity (`sid`) and a `closed` flag;
  delivering a browser event to a closed (or never-created) `EventSource`
  is a no-op, which is exactly the DOM semantics of
  `EventSource.close()` the code relies on for its stale-session guard.
  Wall-clock reads (`Date.now()`, `toLocaleString()`) are passed in as
  explicit `now` parameters.
-/

namespace AiDoctor

/-- Chat roles, from `type Role = "system" | "assistant" | "user"`. -/
inductive Role where
  | system
  | assistant
  | user
deriving DecidableEq, Repr

/-- One transcript entry, from
`type ChatMessage = { id, role, content, createdAt }`. -/
structure ChatMessage where
  id : String
  role : Role
  content : String
  createdAt : String
deriving DecidableEq, Repr

/-- One live-connection object, modelling one `new EventSource(url)`:
`sid` is the object identity, `tempId` the pending assistant entry id the
token handler closed over, `closed` whether `close()` has been called. -/
structure Session where
  sid : Nat
  tempId : String
  closed : Bool
deriving DecidableEq, Repr

/-- The network requests the component issues, in issue order. -/
inductive ApiCall where
  | firstMessage
  | postMessage (encounterId : String) (content : String)
  | openStream (encounterId : String)
  | endEncounter (encounterId : String)
  | clinicalNote (encounterId : String)
deriving DecidableEq, Repr

/-- The whole component state: every `useState` and `useRef` cell of
`ConsultByIdPage`, plus the bookkeeping that models the outside world
(`sessions`, `nextSid`, `calls`, `route`). -/
structure ConsultState where
  /-- `useParams().encounterId`, coerced by `String(encounterId || "")`;
  the empty string models an unbound id. -/
  encounterId : String
  messages : List ChatMessage
  input : String
  isSending : Bool
  isStreaming : Bool
  chiefComplaint : Option String
  noteOpen : Bool
  noteMD : String
  noteLoading : Bool
  /-- `assistantBufferRef.current` — one ambient buffer per view. -/
  assistantBuffer : String
  /-- `sseRef.current` — identity of the currently held `EventSource`. -/
  sse : Option Nat
  /-- every `EventSource` ever constructed by this view. -/
  sessions : List Session
  /-- next fresh `EventSource` identity. -/
  nextSid : Nat
  /-- log of issued network requests. -/
  calls : List ApiCall
  /-- last `router.push` target, if any. -/
  route : Option String
deriving DecidableEq, Repr

/-- JS `String.prototype.trim`: strip leading and trailing whitespace,
modelled over the character list so that it is kernel-computable. -/
def jsTrim (s : String) : String :=
  String.mk (((s.data.dropWhile Char.isWhitespace).reverse.dropWhile
    Char.isWhitespace).reverse)

/-- The transcript update the token handler performs:
`prev.map((m) => m.id === tempId ? { ...m, content } : m)`. -/
def updateContent (msgs : List ChatMessage) (targetId : String)
    (fullContent : String) : List ChatMessage :=
  msgs.map fun m =>
    if m.id = targetId then { m with content := fullContent } else m

/-- The effect of `close()` on the pool of `EventSource` objects: the
one with identity `s` gets its `closed` flag set. -/
def markClosed (s : Nat) (l : List Session) : List Session :=
  l.map fun x => if x.sid = s then { x with closed := true } else x

/-- `sseRef.current?.close(); sseRef.current = null;` — mark the held
`EventSource` (if any) closed and drop the ref. -/
def closeCurrent (st : ConsultState) : ConsultState :=
  match st.sse with
  | none => st
  | some s => { st with sessions := markClosed s st.sessions, sse := none }

/-- `es.close(); sseRef.current = null;` inside the `done` / `onerror`
handlers: closes the `EventSource` the handler belongs to and
unconditionally nulls the ref. -/
def closeSession (s : Nat) (st : ConsultState) : ConsultState :=
  { st with sessions := markClosed s st.sessions, sse := none }

/-- `openSSE` (`useCallback` at the top of the page): close any prior
connection, construct a fresh `EventSource`, reset the ambient buffer,
and append one empty pending assistant entry with id
`asst-${Date.now()}`. -/
def openSSE (now : Nat) (st : ConsultState) : ConsultState :=
  if st.encounterId = "" then st
  else
    let st1 := closeCurrent st
    let tempId := "asst-" ++ toString now
    { st1 with
      sse := some st1.nextSid
      isStreaming := true
      assistantBuffer := ""
      sessions := st1.sessions ++ [⟨st1.nextSid, tempId, false⟩]
      nextSid := st1.nextSid + 1
      messages := st1.messages ++
        [⟨tempId, Role.assistant, "", toString now⟩]
      calls := st1.calls ++ [ApiCall.openStream st.encounterId] }

/-- The wire payload of one `token` event, as seen by
`JSON.parse(data)`: either parsing succeeded (with the `delta` field
present or absent) or it threw and the raw text is used. -/
inductive TokenPayload where
  | parsed (delta : Option String)
  | unparsed (raw : String)
deriving DecidableEq, Repr

/-- The delta text the handler extracts: `parsed.delta ?? ""` on parse
success, `String(data || "")` on parse failure. -/
def deltaOf : TokenPayload → String
  | TokenPayload.parsed (some d) => d
  | TokenPayload.parsed none => ""
  | TokenPayload.unparsed raw => raw

/-- The named events of the server-push channel, plus the transport
error callback. -/
inductive StreamEvent where
  | token (p : TokenPayload)
  | done
  | error
deriving DecidableEq, Repr

/-- The `EventSource` with identity `s` in a pool, provided it exists
and has not been closed. -/
def findLive (l : List Session) (s : Nat) : Option Session :=
  match l.find? (fun x => x.sid = s) with
  | some sess => if sess.closed then none else some sess
  | none => none

/-- The `EventSource` with identity `s`, provided it exists and has not
been closed; only such a session still dispatches events. -/
def liveSession (st : ConsultState) (s : Nat) : Option Session :=
  findLive st.sessions s

/-- Delivery of one event on the connection with identity `s`.  A closed
or unknown `EventSource` dispatches nothing (DOM semantics of
`close()`), so the state is returned unchanged.  Otherwise the
registered handler runs:
* `token`: append the delta to the ambient buffer and replace the
  content of the entry whose id the handler captured (`tempId`) with the
  full accumulated buffer;
* `done` / `onerror`: stop the progress indicator, close the connection,
  null the ref. -/
def deliver (s : Nat) (ev : StreamEvent) (st : ConsultState) :
    ConsultState :=
  match liveSession st s with
  | none => st
  | some sess =>
    match ev with
    | StreamEvent.token p =>
      let buf := st.assistantBuffer ++ deltaOf p
      { st with
        assistantBuffer := buf
        messages := updateContent st.messages sess.tempId buf }
    | StreamEvent.done => closeSession s { st with isStreaming := false }
    | StreamEvent.error => closeSession s { st with isStreaming := false }

/-- Folding a whole sequence of `token` events, in receipt order. -/
def deliverTokens (s : Nat) (ps : List TokenPayload)
    (st : ConsultState) : ConsultState :=
  ps.foldl (fun acc p => deliver s (StreamEvent.token p) acc) st

/-- The concatenation `d1 ++ ... ++ dn` of the deltas of a token
sequence. -/
def joinDeltas : List TokenPayload → String
  | [] => ""
  | p :: ps => deltaOf p ++ joinDeltas ps

/-- The fixed disclaimer text seeded as the first entry (both the
success and the failure branch of `boot` use this literal). -/
def disclaimerText : String :=
  "※ このサービスは医療行為の代替ではありません。緊急時は119番または最寄りの医療機関へ。"

/-- `let content = "本日はどうなさいましたか？"` — the default greeting. -/
def defaultGreeting : String := "本日はどうなさいましたか？"

/-- Outcome of `fetch("/api/templates/first-message")` as `boot` sees
it: `ok` with the (possibly absent) `data?.content`, a non-success
status (`res.ok` false, no throw), or a thrown network/parse error. -/
inductive GreetResp where
  | ok (content : Option String)
  | httpFail
  | netFail
deriving DecidableEq, Repr

/-- The greeting text chosen by `boot`: `data?.content || content` keeps
the default on non-ok, absent or empty (falsy) content, and the `catch`
branch also uses the default. -/
def greetContent : GreetResp → String
  | GreetResp.ok (some c) => if c = "" then defaultGreeting else c
  | GreetResp.ok none => defaultGreeting
  | GreetResp.httpFail => defaultGreeting
  | GreetResp.netFail => defaultGreeting

/-- The two entries `boot` seeds: ids `sys-${Date.now()}` and
`asst-${Date.now() + 1}`, fixed disclaimer first, greeting second. -/
def bootMessages (resp : GreetResp) (now : Nat) : List ChatMessage :=
  [⟨"sys-" ++ toString now, Role.system, disclaimerText, toString now⟩,
   ⟨"asst-" ++ toString (now + 1), Role.assistant, greetContent resp,
    toString now⟩]

/-- The `boot` effect (`useEffect` body) on the component state, for a
still-mounted view (`aborted = false`): it issues the template fetch and
replaces the transcript with the two seeded entries. -/
def boot (resp : GreetResp) (now : Nat) (st : ConsultState) :
    ConsultState :=
  if st.encounterId = "" then st
  else
    { st with
      calls := st.calls ++ [ApiCall.firstMessage]
      messages := bootMessages resp now }

/-- `sendMessage(text?)`, with the outcome of the message POST passed in
as `postOk` (`res.ok` and no throw).  `now` stamps the user entry,
`now2` the `openSSE` call that follows a successful post. -/
def sendMessage (text? : Option String) (postOk : Bool)
    (now now2 : Nat) (st : ConsultState) : ConsultState :=
  if st.encounterId = "" then { st with route := some "/" }
  else
    let content := jsTrim (text?.getD st.input)
    if content = "" then st
    else
      let userMsg : ChatMessage :=
        ⟨"user-" ++ toString now, Role.user, content, toString now⟩
      let st1 :=
        { st with
          isSending := true
          messages := st.messages ++ [userMsg]
          input := ""
          calls := st.calls ++
            [ApiCall.postMessage st.encounterId content] }
      if postOk then
        let st2 := openSSE now2 st1
        { st2 with isSending := false }
      else
        { st1 with isSending := false }

/-- Outcome of the clinical-note POST as `generateClinicalNote` sees it:
a success response with the optional `note_md` / `chief_complaint`
fields of its JSON body, or a failure (network error, thrown parse, or
non-success status — all land in the same `catch`). -/
inductive NoteResp where
  | success (noteMd : Option String) (chief : Option String)
  | failure
deriving DecidableEq, Repr

/-- The fixed text in front of the chief complaint in the fallback
note. -/
def fallbackHead : String := "# 内科カルテ\n\n**主訴**: "

/-- The fixed text between the chief complaint and the timestamp in the
fallback note. -/
def fallbackTail : String :=
  "\n\n**現病歴**: （チャット内容をもとに要約）\n\n**既往歴**: \n\n**アレルギー**: \n\n" ++
  "**内服薬**: \n\n**身体所見**: \n\n**鑑別診断**: \n\n**評価**: \n\n" ++
  "**Plan**: 検査/処方/指導/フォローアップ\n\n---\n作成時刻: "

/-- The deterministic fallback note synthesized in the `catch` branch:
`` `...${chiefComplaint ?? "（未入力）"}...${new Date().toLocaleString()}` ``. -/
def fallbackNote (chiefComplaint : Option String) (ts : String) :
    String :=
  fallbackHead ++ chiefComplaint.getD "（未入力）" ++ fallbackTail ++ ts

/-- `String(data?.note_md || "")` — empty or absent collapses to `""`. -/
def noteMdOf : Option String → String
  | some s => s
  | none => ""

/-- `if (data?.chief_complaint) setChiefComplaint(...)` — the truthiness
test skips absent and empty values. -/
def chiefOf (returned : Option String) (old : Option String) :
    Option String :=
  match returned with
  | some c => if c = "" then old else some c
  | none => old

/-- `generateClinicalNote`: guarded on a bound encounter id; issues the
clinical-note POST; on success adopts the returned note text (and chief
complaint when truthy); on any failure synthesizes the fallback note.
Both branches open the review dialog; `finally` clears the loading
flag.  `ts` is the wall-clock string read in the `catch` branch. -/
def generateClinicalNote (resp : NoteResp) (ts : String)
    (st : ConsultState) : ConsultState :=
  if st.encounterId = "" then st
  else
    let st1 :=
      { st with
        noteLoading := true
        calls := st.calls ++ [ApiCall.clinicalNote st.encounterId] }
    match resp with
    | NoteResp.success nm cc =>
      { st1 with
        noteMD := noteMdOf nm
        chiefComplaint := chiefOf cc st1.chiefComplaint
        noteOpen := true
        noteLoading := false }
    | NoteResp.failure =>
      { st1 with
        noteMD := fallbackNote st1.chiefComplaint ts
        noteOpen := true
        noteLoading := false }

/-- `handleEndConsult`: issue the end-of-encounter POST; whether it
succeeds (`try` continues) or throws (`catch` logs), the next step is
the same `await generateClinicalNote()`. -/
def handleEndConsult (endOk : Bool) (resp : NoteResp) (ts : String)
    (st : ConsultState) : ConsultState :=
  let st1 :=
    { st with calls := st.calls ++ [ApiCall.endEncounter st.encounterId] }
  if endOk then generateClinicalNote resp ts st1
  else generateClinicalNote resp ts st1

/-- A fresh consult view, right after mount for encounter `enc1`. -/
def exState : ConsultState :=
  { encounterId := "enc1", messages := [], input := "", isSending := false
    isStreaming := false, chiefComplaint := none, noteOpen := false
    noteMD := "", noteLoading := false, assistantBuffer := ""
    sse := none, sessions := [], nextSid := 0, calls := [], route := none }

/-- A consult view with one live stream (session 0) and its pending
assistant entry. -/
def exStreaming : ConsultState :=
  { exState with
    isStreaming := true
    sse := some 0
    sessions := [⟨0, "asst-5", false⟩]
    nextSid := 1
    messages := [⟨"asst-5", Role.assistant, "", "5"⟩]
    calls := [ApiCall.openStream "enc1"] }

/-- A finalized user entry, for witnesses. -/
def exMsgA : ChatMessage := ⟨"m1", Role.user, "hi", "1"⟩

/-- A finalized assistant entry, for witnesses. -/
def exMsgB : ChatMessage := ⟨"m2", Role.assistant, "yo", "2"⟩

/-- A consult view whose encounter already has a chief complaint. -/
def exEnded : ConsultState := { exState with chiefComplaint := some "頭痛" }

/-- A consult view with no encounter id bound. -/
def exNoId : ConsultState := { exState with encounterId := "" }

/-- A consult view with composed but unsent input. -/
def exTyped : ConsultState := { exState with input := "お腹が痛い" }

/-! ### Lemmas about the session pool -/

theorem findLive_markClosed (l : List Session) (s : Nat) :
    findLive (markClosed s l) s = none := by
  induction l with
  | nil => rfl
  | cons a l ih =>
    by_cases ha : a.sid = s
    · simp [findLive, markClosed, ha]
    · simpa [findLive, markClosed, ha] using ih

theorem findLive_append_new (l : List Session) (s n : Nat) (t : String)
    (hne : s ≠ n) :
    findLive (markClosed s l ++ [⟨n, t, false⟩]) s = none := by
  have hclosed := findLive_markClosed l s
  unfold findLive at hclosed ⊢
  rw [List.find?_append]
  cases h : (markClosed s l).find? (fun x => x.sid = s) with
  | none =>
    have hns : ¬ n = s := fun h2 => hne h2.symm
    simp [h, hns]
  | some sess =>
    rw [h] at hclosed
    by_cases hc : sess.closed
    · simp [h, hc]
    · simp [hc] at hclosed

theorem deliver_closed (s : Nat) (ev : StreamEvent) (st : ConsultState)
    (h : liveSession st s = none) : deliver s ev st = st := by
  simp [deliver, h]

/-! ### Lemmas about transcript updates -/

theorem updateContent_of_ne (msgs : List ChatMessage) (tid c : String)
    (h : ∀ m ∈ msgs, m.id ≠ tid) : updateContent msgs tid c = msgs := by
  unfold updateContent
  calc msgs.map (fun m => if m.id = tid then { m with content := c } else m)
      = msgs.map id := List.map_congr_left (fun m hm => by simp [h m hm])
    _ = msgs := List.map_id msgs

theorem updateContent_append_last (pre : List ChatMessage)
    (e : ChatMessage) (c : String) (hpre : ∀ m ∈ pre, m.id ≠ e.id) :
    updateContent (pre ++ [e]) e.id c = pre ++ [{ e with content := c }] := by
  have hfront := updateContent_of_ne pre e.id c hpre
  unfold updateContent at hfront ⊢
  rw [List.map_append, hfront]
  simp

/-- Token delivery on a live session: the new component state,
spelled out. -/
theorem deliver_token_live (s : Nat) (p : TokenPayload)
    (st : ConsultState) (sess : Session)
    (hlive : liveSession st s = some sess) :
    deliver s (StreamEvent.token p) st =
      { st with
        assistantBuffer := st.assistantBuffer ++ deltaOf p
        messages := updateContent st.messages sess.tempId
          (st.assistantBuffer ++ deltaOf p) } := by
  simp [deliver, hlive]

/-- Invariant run of a whole token sequence on a live session whose
pending entry is the last transcript entry: the buffer accumulates the
deltas in order, and the pending entry's content always equals the
buffer. -/
theorem deliverTokens_run (s : Nat) (ps : List TokenPayload) :
    ∀ (st : ConsultState) (sess : Session) (pre : List ChatMessage)
      (e : ChatMessage),
    liveSession st s = some sess →
    st.messages = pre ++ [e] →
    e.id = sess.tempId →
    e.content = st.assistantBuffer →
    (∀ m ∈ pre, m.id ≠ sess.tempId) →
    (deliverTokens s ps st).assistantBuffer =
        st.assistantBuffer ++ joinDeltas ps ∧
    (deliverTokens s ps st).messages =
        pre ++ [{ e with content := st.assistantBuffer ++ joinDeltas ps }] := by
  induction ps with
  | nil =>
    intro st sess pre e hlive hmsgs heid hbuf hpre
    refine ⟨by simp [deliverTokens, joinDeltas], ?_⟩
    simp only [deliverTokens, List.foldl_nil, joinDeltas,
      String.append_empty, hmsgs, ← hbuf]
  | cons p ps ih =>
    intro st sess pre e hlive hmsgs heid hbuf hpre
    have hstep : deliverTokens s (p :: ps) st =
        deliverTokens s ps (deliver s (StreamEvent.token p) st) := rfl
    rw [hstep, deliver_token_live s p st sess hlive]
    have hupd : updateContent st.messages sess.tempId
        (st.assistantBuffer ++ deltaOf p) =
        pre ++ [{ e with content := st.assistantBuffer ++ deltaOf p }] := by
      rw [hmsgs, ← heid]
      exact updateContent_append_last pre e _
        (fun m hm h2 => hpre m hm (h2.trans heid))
    have hres := ih
      { st with
        assistantBuffer := st.assistantBuffer ++ deltaOf p
        messages := updateContent st.messages sess.tempId
          (st.assistantBuffer ++ deltaOf p) }
      sess pre { e with content := st.assistantBuffer ++ deltaOf p }
      hlive (by simpa using hupd) heid rfl hpre
    refine ⟨?_, ?_⟩
    · rw [hres.1]
      simp [joinDeltas, String.append_assoc]
    · rw [hres.2]
      simp [joinDeltas, String.append_assoc]

theorem findLive_append_fresh (l : List Session) (n : Nat) (t : String)
    (h : ∀ x ∈ l, x.sid ≠ n) :
    findLive (l ++ [⟨n, t, false⟩]) n = some ⟨n, t, false⟩ := by
  have h1 : l.find? (fun x => x.sid = n) = none := by
    rw [List.find?_eq_none]
    intro x hx
    simpa using h x hx
  unfold findLive
  rw [List.find?_append]
  simp [h1]

theorem markClosed_sid_ne (s n : Nat) (l : List Session)
    (h : ∀ y ∈ l, y.sid ≠ n) : ∀ x ∈ markClosed s l, x.sid ≠ n := by
  intro x hx
  unfold markClosed at hx
  obtain ⟨y, hy, rfl⟩ := List.mem_map.mp hx
  by_cases hys : y.sid = s <;> simpa [hys] using h y hy

/-- The state right after `openSSE`: the freshly created connection is
the live one, the transcript gained exactly one empty pending assistant
entry at the end, the ambient buffer is reset, and one stream request
was issued. -/
theorem openSSE_after (now : Nat) (st : ConsultState)
    (henc : st.encounterId ≠ "")
    (hsid : ∀ x ∈ st.sessions, x.sid < st.nextSid) :
    liveSession (openSSE now st) st.nextSid =
      some ⟨st.nextSid, "asst-" ++ toString now, false⟩ ∧
    (openSSE now st).messages =
      st.messages ++
        [⟨"asst-" ++ toString now, Role.assistant, "", toString now⟩] ∧
    (openSSE now st).assistantBuffer = "" ∧
    (openSSE now st).calls = st.calls ++ [ApiCall.openStream st.encounterId] := by
  have hne : ∀ x ∈ st.sessions, x.sid ≠ st.nextSid :=
    fun x hx => Nat.ne_of_lt (hsid x hx)
  unfold openSSE
  rw [if_neg henc]
  cases hsse : st.sse with
  | none =>
    simp only [closeCurrent, hsse, liveSession]
    exact ⟨findLive_append_fresh st.sessions _ _ hne, trivial, trivial, trivial⟩
  | some s =>
    simp only [closeCurrent, hsse, liveSession]
    exact ⟨findLive_append_fresh _ _ _
      (markClosed_sid_ne s st.nextSid st.sessions hne), trivial, trivial, trivial⟩

/-! ### Claim theorems -/

/-- C1: opening a second stream for a view with an active streaming
session closes the first session, and every event subsequently delivered
on a closed session (closed by completion, failure or supersession) is
ignored: the whole state, and in particular every transcript entry, is
left unchanged. -/
theorem stream_supersede_and_stale_guard (st : ConsultState)
    (s now : Nat) (hs : s < st.nextSid) (hsse : st.sse = some s)
    (henc : st.encounterId ≠ "") :
    liveSession (openSSE now st) s = none ∧
    ∀ (st2 : ConsultState) (ev : StreamEvent), liveSession st2 s = none →
      deliver s ev st2 = st2 ∧ (deliver s ev st2).messages = st2.messages := by
  constructor
  · have hne : s ≠ st.nextSid := Nat.ne_of_lt hs
    unfold openSSE
    rw [if_neg henc]
    simp only [closeCurrent, hsse, liveSession]
    exact findLive_append_new st.sessions s st.nextSid _ hne
  · intro st2 ev h2
    have h3 := deliver_closed s ev st2 h2
    exact ⟨h3, by rw [h3]⟩

/-- C1 witness: superseding the live session 0 of `exStreaming` kills
it, and a token event delivered on it afterwards changes nothing. -/
theorem stream_supersede_and_stale_guard_witness :
    liveSession (openSSE 9 exStreaming) 0 = none ∧
    deliver 0 (StreamEvent.token (TokenPayload.parsed (some "x")))
        (openSSE 9 exStreaming) = openSSE 9 exStreaming := by
  have h := stream_supersede_and_stale_guard exStreaming 0 9
    (by decide) (by decide) (by decide)
  exact ⟨h.1, (h.2 (openSSE 9 exStreaming)
    (StreamEvent.token (TokenPayload.parsed (some "x"))) h.1).1⟩

/-- C2: within one session, each token's delta (parsed `delta` field,
or the raw payload on parse failure) is appended to the session buffer
in receipt order, and the pending assistant entry's content is replaced
by the full accumulated buffer, so after deltas `d1 .. dn` the entry
holds `d1 ++ ... ++ dn`, independent of chunk boundaries. -/
theorem token_accumulation (st : ConsultState) (now : Nat)
    (ps : List TokenPayload) (henc : st.encounterId ≠ "")
    (hsid : ∀ x ∈ st.sessions, x.sid < st.nextSid)
    (hid : ∀ m ∈ st.messages, m.id ≠ "asst-" ++ toString now) :
    (deliverTokens st.nextSid ps (openSSE now st)).assistantBuffer =
      joinDeltas ps ∧
    (deliverTokens st.nextSid ps (openSSE now st)).messages =
      st.messages ++
        [⟨"asst-" ++ toString now, Role.assistant, joinDeltas ps,
          toString now⟩] := by
  obtain ⟨hlive, hmsgs, hbuf, -⟩ := openSSE_after now st henc hsid
  have hrun := deliverTokens_run st.nextSid ps (openSSE now st)
    ⟨st.nextSid, "asst-" ++ toString now, false⟩ st.messages
    ⟨"asst-" ++ toString now, Role.assistant, "", toString now⟩
    hlive hmsgs rfl (by rw [hbuf]) hid
  rw [hbuf] at hrun
  simpa using hrun

/-- C2 witness: the spec example — deltas `"Hel"`, `"lo, "`, `"world"`
yield the single pending entry content `"Hello, world"`. -/
theorem token_accumulation_witness :
    (deliverTokens 0
      [TokenPayload.parsed (some "Hel"), TokenPayload.parsed (some "lo, "),
       TokenPayload.parsed (some "world")]
      (openSSE 7 exState)).messages =
    [⟨"asst-7", Role.assistant, "Hello, world", "7"⟩] := by
  have h := token_accumulation exState 7
    [TokenPayload.parsed (some "Hel"), TokenPayload.parsed (some "lo, "),
     TokenPayload.parsed (some "world")]
    (by decide) (by intro x hx; simp [exState] at hx) (by intro m hm; simp [exState] at hm)
  exact h.2.trans (by decide)

/-- C5: a transport error on the live connection closes it (the session
is no longer live, the ref is dropped, the progress indicator stops),
while every transcript entry — including the pending one with its
partial content — the ambient buffer, and the request log are left
untouched: no retry, no discard. -/
theorem transport_error_no_discard (st : ConsultState) (s : Nat)
    (sess : Session) (hlive : liveSession st s = some sess) :
    (deliver s StreamEvent.error st).messages = st.messages ∧
    (deliver s StreamEvent.error st).calls = st.calls ∧
    (deliver s StreamEvent.error st).assistantBuffer = st.assistantBuffer ∧
    (deliver s StreamEvent.error st).isStreaming = false ∧
    (deliver s StreamEvent.error st).sse = none ∧
    liveSession (deliver s StreamEvent.error st) s = none := by
  simp only [deliver, hlive]
  refine ⟨rfl, rfl, rfl, rfl, rfl, ?_⟩
  simp only [closeSession, liveSession]
  exact findLive_markClosed st.sessions s

/-- C5 witness: a transport error on the live session of `exStreaming`
closes it and leaves the transcript as it was. -/
theorem transport_error_no_discard_witness :
    (deliver 0 StreamEvent.error exStreaming).messages =
      exStreaming.messages ∧
    liveSession (deliver 0 StreamEvent.error exStreaming) 0 = none := by
  have h := transport_error_no_discard exStreaming 0 ⟨0, "asst-5", false⟩
    (by decide)
  exact ⟨h.1, h.2.2.2.2.2⟩

/-- C8: `updateContent` is a no-op when no entry carries the target id;
it never reorders (position `i` keeps the entry with the same id) and
never touches an entry with a different id; at the system level an
update can only happen through a token event of a live (pending)
session, targets that session's own entry, and a token event of a
closed (finalized) session leaves the transcript unchanged. -/
theorem updateContent_frame (msgs : List ChatMessage) (tid c : String) :
    ((∀ m ∈ msgs, m.id ≠ tid) → updateContent msgs tid c = msgs) ∧
    (∀ i : Nat, ((updateContent msgs tid c)[i]?).map ChatMessage.id =
      (msgs[i]?).map ChatMessage.id) ∧
    (∀ i : Nat, ∀ m : ChatMessage, msgs[i]? = some m → m.id ≠ tid →
      (updateContent msgs tid c)[i]? = some m) ∧
    (∀ (st : ConsultState) (s : Nat) (p : TokenPayload),
      liveSession st s = none →
      (deliver s (StreamEvent.token p) st).messages = st.messages) ∧
    (∀ (st : ConsultState) (s : Nat) (p : TokenPayload) (sess : Session),
      liveSession st s = some sess →
      (deliver s (StreamEvent.token p) st).messages =
        updateContent st.messages sess.tempId
          (st.assistantBuffer ++ deltaOf p)) := by
  refine ⟨updateContent_of_ne msgs tid c, ?_, ?_, ?_, ?_⟩
  · intro i
    unfold updateContent
    rw [List.getElem?_map]
    cases msgs[i]? with
    | none => rfl
    | some m => by_cases hm : m.id = tid <;> simp [hm]
  · intro i m hm hne
    unfold updateContent
    rw [List.getElem?_map, hm]
    simp [hne]
  · intro st s p h
    rw [deliver_closed s (StreamEvent.token p) st h]
  · intro st s p sess hlive
    simp [deliver, hlive]

/-- C8 witness: updating an absent id is a no-op, and updating `m2`
leaves the entry `m1` at position 0 unchanged. -/
theorem updateContent_frame_witness :
    updateContent [exMsgA, exMsgB] "zz" "w" = [exMsgA, exMsgB] ∧
    (updateContent [exMsgA, exMsgB] "m2" "w")[0]? = some exMsgA := by
  have h1 := updateContent_frame [exMsgA, exMsgB] "zz" "w"
  have h2 := updateContent_frame [exMsgA, exMsgB] "m2" "w"
  exact ⟨h1.1 (by decide), h2.2.2.1 0 exMsgA (by decide) (by decide)⟩

/-- The `openSSE` effect on the ref, the transcript and the request
log, whatever the prior connection state. -/
theorem openSSE_frame (now : Nat) (st : ConsultState)
    (henc : st.encounterId ≠ "") :
    (openSSE now st).calls = st.calls ++ [ApiCall.openStream st.encounterId] ∧
    (openSSE now st).sse = some st.nextSid ∧
    (openSSE now st).messages = st.messages ++
      [⟨"asst-" ++ toString now, Role.assistant, "", toString now⟩] := by
  unfold openSSE
  rw [if_neg henc]
  cases hsse : st.sse <;> simp [closeCurrent, hsse]

/-- C3: on user-initiated termination, the summary generation request is
issued even when the end-of-encounter request failed; when generation
also fails, the presented artifact is exactly the deterministic fallback
template, which the review dialog opens on, and the template carries the
current chief complaint (or its placeholder) and the generation
timestamp. -/
theorem termination_fallback (st : ConsultState) (endOk : Bool)
    (ts : String) (henc : st.encounterId ≠ "") :
    (handleEndConsult endOk NoteResp.failure ts st).calls =
      st.calls ++ [ApiCall.endEncounter st.encounterId,
                   ApiCall.clinicalNote st.encounterId] ∧
    (handleEndConsult endOk NoteResp.failure ts st).noteMD =
      fallbackNote st.chiefComplaint ts ∧
    (handleEndConsult endOk NoteResp.failure ts st).noteOpen = true ∧
    (∃ pre suf : String, fallbackNote st.chiefComplaint ts =
      pre ++ ((st.chiefComplaint.getD "（未入力）") ++ suf)) ∧
    (∃ pre : String, fallbackNote st.chiefComplaint ts = pre ++ ts) := by
  unfold handleEndConsult generateClinicalNote
  cases endOk <;>
    exact ⟨by simp [henc], by simp [henc], by simp [henc],
      ⟨fallbackHead, fallbackTail ++ ts,
        by simp [fallbackNote, String.append_assoc]⟩,
      ⟨fallbackHead ++ (st.chiefComplaint.getD "（未入力）") ++ fallbackTail,
        rfl⟩⟩

/-- C3 witness: with a failed end request and a failed generation
request, the view of `exEnded` still issues the generation call and
shows the fallback note. -/
theorem termination_fallback_witness :
    (handleEndConsult false NoteResp.failure "2025/1/1 12:00:00"
        exEnded).noteMD =
      fallbackNote (some "頭痛") "2025/1/1 12:00:00" ∧
    (handleEndConsult false NoteResp.failure "2025/1/1 12:00:00"
        exEnded).calls =
      [ApiCall.endEncounter "enc1", ApiCall.clinicalNote "enc1"] := by
  have h := termination_fallback exEnded false "2025/1/1 12:00:00"
    (by decide)
  exact ⟨h.2.1, h.1.trans (by decide)⟩

/-- C4: bootstrap seeds exactly two entries, disclaimer first; a
successful greeting fetch with non-empty content `c` seeds
`assistant(c)`, a failed fetch (thrown, or non-success status) seeds the
fixed default greeting; the disclaimer text is the same constant in all
outcomes. -/
theorem bootstrap_seeds (st : ConsultState) (c : String) (now : Nat)
    (henc : st.encounterId ≠ "") (hc : c ≠ "") :
    (boot (GreetResp.ok (some c)) now st).messages =
      [⟨"sys-" ++ toString now, Role.system, disclaimerText, toString now⟩,
       ⟨"asst-" ++ toString (now + 1), Role.assistant, c, toString now⟩] ∧
    (boot GreetResp.netFail now st).messages =
      [⟨"sys-" ++ toString now, Role.system, disclaimerText, toString now⟩,
       ⟨"asst-" ++ toString (now + 1), Role.assistant, defaultGreeting,
        toString now⟩] ∧
    (boot GreetResp.httpFail now st).messages =
      [⟨"sys-" ++ toString now, Role.system, disclaimerText, toString now⟩,
       ⟨"asst-" ++ toString (now + 1), Role.assistant, defaultGreeting,
        toString now⟩] := by
  refine ⟨?_, ?_, ?_⟩ <;> simp [boot, henc, bootMessages, greetContent, hc]

/-- C4 witness: greeting `"X"` and greeting failure, for a mounted view
on encounter `enc1` at clock 3. -/
theorem bootstrap_seeds_witness :
    (boot (GreetResp.ok (some "X")) 3 exState).messages =
      [⟨"sys-3", Role.system, disclaimerText, "3"⟩,
       ⟨"asst-4", Role.assistant, "X", "3"⟩] ∧
    (boot GreetResp.netFail 3 exState).messages =
      [⟨"sys-3", Role.system, disclaimerText, "3"⟩,
       ⟨"asst-4", Role.assistant, defaultGreeting, "3"⟩] := by
  have h := bootstrap_seeds exState "X" 3 (by decide) (by decide)
  exact ⟨h.1.trans (by decide), h.2.1.trans (by decide)⟩

/-- C6: when the message post fails, the optimistically appended user
entry stays, exactly one request was issued (no retry), no stream is
opened and nothing else changes (no user-facing error surface exists to
raise); the streaming consumer is opened exactly when the post
succeeds. -/
theorem post_failure_no_rollback (st : ConsultState) (txt : Option String)
    (now now2 : Nat) (henc : st.encounterId ≠ "")
    (hc : jsTrim (txt.getD st.input) ≠ "") :
    sendMessage txt false now now2 st =
      { st with
        isSending := false
        messages := st.messages ++
          [⟨"user-" ++ toString now, Role.user, jsTrim (txt.getD st.input),
            toString now⟩]
        input := ""
        calls := st.calls ++
          [ApiCall.postMessage st.encounterId (jsTrim (txt.getD st.input))] } ∧
    (sendMessage txt true now now2 st).calls =
      st.calls ++
        [ApiCall.postMessage st.encounterId (jsTrim (txt.getD st.input)),
         ApiCall.openStream st.encounterId] ∧
    (sendMessage txt true now now2 st).sse = some st.nextSid ∧
    (sendMessage txt false now now2 st).sse = st.sse := by
  refine ⟨?_, ?_, ?_, ?_⟩ <;>
    cases hsse : st.sse <;>
    simp [sendMessage, openSSE, closeCurrent, henc, hc, hsse,
      List.append_assoc]

/-- C6 witness: posting the composed text of `exTyped` fails — the
entry and the single post call remain; when it succeeds, the stream
request follows the post. -/
theorem post_failure_no_rollback_witness :
    (sendMessage none false 4 5 exTyped).messages =
      [⟨"user-4", Role.user, "お腹が痛い", "4"⟩] ∧
    (sendMessage none false 4 5 exTyped).calls =
      [ApiCall.postMessage "enc1" "お腹が痛い"] ∧
    (sendMessage none true 4 5 exTyped).calls =
      [ApiCall.postMessage "enc1" "お腹が痛い", ApiCall.openStream "enc1"] := by
  have h := post_failure_no_rollback exTyped none 4 5 (by decide) (by decide)
  refine ⟨?_, ?_, h.2.1.trans (by decide)⟩
  · rw [h.1]
    decide
  · rw [h.1]
    decide

/-- C7: submitting input whose trimmed content is empty changes nothing
at all (no transcript append, no network call); with no encounter id
bound, submission only redirects to the default context. -/
theorem empty_input_guard (st : ConsultState) (txt : Option String)
    (postOk : Bool) (now now2 : Nat) :
    (st.encounterId ≠ "" → jsTrim (txt.getD st.input) = "" →
      sendMessage txt postOk now now2 st = st) ∧
    (st.encounterId = "" →
      sendMessage txt postOk now now2 st = { st with route := some "/" }) := by
  constructor
  · intro henc hc
    simp [sendMessage, henc, hc]
  · intro henc
    simp [sendMessage, henc]

/-- C7 witness: whitespace-only input on `exState` is a strict no-op;
submission on the id-less `exNoId` only records the redirect. -/
theorem empty_input_guard_witness :
    sendMessage (some "   ") true 1 2 exState = exState ∧
    sendMessage (some "hello") true 1 2 exNoId =
      { exNoId with route := some "/" } := by
  have h1 := empty_input_guard exState (some "   ") true 1 2
  have h2 := empty_input_guard exNoId (some "hello") true 1 2
  exact ⟨h1.1 (by decide) (by decide), h2.2 (by decide)⟩

end AiDoctor
